import Mathlib

/-!
Shallow embedding of `src/insights.py` and `src/image_classifier.py` from the
dairy image-classification repository, together with theorems settling the
spec claims about them.

Conventions of the embedding:
* pandas cells are either integers or strings (`Value`);
* Python exceptions raised inside a `try` block are modelled by `Option`
  (`none` = an exception escaped the block);
* the zero-shot pipeline call (together with `Image.open`, which sits inside
  the same `try` block) is a parameter: a function from the image path and the
  candidate labels to the observed outcome;
* scores are modelled as rationals (they only flow through the code: they are
  stored and compared, never computed with);
* Python dicts with string keys and string values are association lists, in
  the literal key order of the source.
-/

namespace Dairy

/-- A pandas scalar cell value as it occurs in this program: an integer or a string. -/
inductive Value where
  | vint (n : Int)
  | vstr (s : String)
  deriving DecidableEq, Repr

/-- Python `v * n` for a cell value: integer multiplication for ints,
string repetition for strings (as in `"5" * 12`). -/
def Value.pyMul (v : Value) (n : Nat) : Value :=
  match v with
  | .vint i => .vint (i * n)
  | .vstr s => .vstr (String.join (List.replicate n s))

/-- The value of a decimal digit sequence; `none` when the list is empty or
holds a non-digit (helper for `pyParseInt`). -/
def decDigits : List Char → Option Nat
  | [] => none
  | ds =>
    if ds.all Char.isDigit then
      some (ds.foldl (fun n c => 10 * n + (c.toNat - 48)) 0)
    else none

/-- Python `int(str)`: strip surrounding whitespace, allow one optional sign,
then require decimal digits; `none` models the `ValueError` raised otherwise. -/
def pyParseInt (s : String) : Option Int :=
  let cs := ((s.data.dropWhile Char.isWhitespace).reverse.dropWhile Char.isWhitespace).reverse
  match cs with
  | '-' :: ds => (decDigits ds).map fun n => -(n : Int)
  | '+' :: ds => (decDigits ds).map fun n => (n : Int)
  | ds => (decDigits ds).map fun n => (n : Int)

/-- Python `int(v)`: identity on ints; for strings, parse an optionally signed
decimal literal after stripping whitespace. `none` models a raised `ValueError`. -/
def Value.pyInt : Value → Option Int
  | .vint i => some i
  | .vstr s => pyParseInt s

/-- Python `str(v)` (also the `f"{v}"` interpolation of a cell). -/
def Value.pyStr : Value → String
  | .vint i => toString i
  | .vstr s => s

/-- One cell of the pandas elementwise comparison `column == breed_type`:
a string cell compares by exact, case-sensitive string equality; an int cell
never equals a string. -/
def Value.eqStr (v : Value) (s : String) : Bool :=
  match v with
  | .vstr t => t == s
  | .vint _ => false

/-- Python `str.lower()` (character-wise lower-casing; the program only ever
compares the result with the ASCII strings "cow" and "buffalo"). -/
def pyLower (s : String) : String :=
  String.mk (s.data.map Char.toLower)

/-- Python `str.capitalize()`: first character upper-cased, the rest lower-cased. -/
def pyCapitalize (s : String) : String :=
  match s.data with
  | [] => ""
  | c :: cs => String.mk (c.toUpper :: cs.map Char.toLower)

/-- Group a reversed digit list in threes, inserting a comma after every third
digit that is followed by more digits (helper for `pyCommaFmt`). -/
def groupRev : List Char → List Char
  | d1 :: d2 :: d3 :: d4 :: rest => d1 :: d2 :: d3 :: ',' :: groupRev (d4 :: rest)
  | l => l

/-- Python `f"{n:,}"` on an integer: decimal digits with thousands separators. -/
def pyCommaFmt (n : Int) : String :=
  (if n < 0 then "-" else "") ++ String.mk (groupRev (toString n.natAbs).data.reverse).reverse

/-- One row of the cow table (`cow_breeds.csv` / the built-in sample), with the
columns the code reads. -/
structure CowRow where
  Breed_Type : Value
  Cost_Of_Cow_INR : Value
  Monthly_Income_INR : Value
  Popular_Areas : Value
  Milk_Per_Day_Litres : Value
  deriving DecidableEq, Repr

/-- One row of the buffalo table, with the columns the code reads. -/
structure BuffRow where
  Breed_Type : Value
  Cost_per_Buffalo_INR : Value
  Monthly_Income_per_Buffalo_INR : Value
  Popular_Areas : Value
  Milk_per_Day_Liters : Value
  deriving DecidableEq, Repr

/-- The built-in sample cow table created when the CSV files fail to load
(`insights.py`, lines 24-30). -/
def sample_cow_breeds : List CowRow :=
  [⟨.vstr "Holstein-Friesian", .vint 50000, .vint 8000, .vstr "Punjab, Haryana", .vint 20⟩,
   ⟨.vstr "Jersey", .vint 45000, .vint 7500, .vstr "Global", .vint 15⟩,
   ⟨.vstr "Guernsey", .vint 40000, .vint 7000, .vstr "UK, US", .vint 12⟩]

/-- The built-in sample buffalo table (`insights.py`, lines 31-37). -/
def sample_buff_breeds : List BuffRow :=
  [⟨.vstr "Murrah", .vint 60000, .vint 9000, .vstr "Haryana, Punjab", .vint 18⟩,
   ⟨.vstr "Nili-Ravi", .vint 55000, .vint 8500, .vstr "Pakistan, Punjab", .vint 16⟩,
   ⟨.vstr "Jaffarabadi", .vint 65000, .vint 9500, .vstr "Gujarat", .vint 20⟩]

/-- One entry of the ranked result list the zero-shot pipeline returns. -/
structure BreedResult where
  label : String
  score : ℚ
  deriving DecidableEq, Repr

/-- Outcome of the effectful part of `detect_breed`'s `try` block: opening the
image and invoking the pipeline either raises or returns a ranked result list. -/
inductive ModelResp where
  | raises
  | returns (results : List BreedResult)
  deriving DecidableEq, Repr

/-- The module-level `breed_classifier`: `none` when the pipeline failed to load;
otherwise the observed behaviour of one call, as a function of the image path
and the candidate labels. -/
abbrev BreedClassifier := Option (String → List Value → ModelResp)

/-- Candidate-label selection of `detect_breed` (`insights.py`, lines 47-54):
the breed-name column of the species table when that table object exists,
otherwise a hard-coded fallback list chosen by species. -/
def detectLabels (cow_breeds : Option (List CowRow)) (buff_breeds : Option (List BuffRow))
    (animal_type : String) : List Value :=
  if pyLower animal_type == "cow" && cow_breeds.isSome then
    (cow_breeds.getD []).map CowRow.Breed_Type
  else if pyLower animal_type == "buffalo" && buff_breeds.isSome then
    (buff_breeds.getD []).map BuffRow.Breed_Type
  else if pyLower animal_type == "cow" then
    [.vstr "Holstein-Friesian", .vstr "Jersey", .vstr "Murrah", .vstr "Nili-Ravi"]
  else
    [.vstr "Murrah", .vstr "Nili-Ravi", .vstr "Jaffarabadi", .vstr "Bhadawari"]

/-- `detect_breed` (`insights.py`, lines 39-70). Total by construction: every
degraded path returns a placeholder string instead of raising. -/
def detect_breed (breed_classifier : BreedClassifier)
    (cow_breeds : Option (List CowRow)) (buff_breeds : Option (List BuffRow))
    (image_path animal_type : String) : String :=
  match breed_classifier with
  | none => "Default " ++ pyCapitalize animal_type
  | some clf =>
    let labels := detectLabels cow_breeds buff_breeds animal_type
    if labels.isEmpty then "Unknown " ++ pyCapitalize animal_type
    else
      match clf image_path labels with
      | .raises => "Error detecting breed"
      | .returns [] => "Uncertain " ++ pyCapitalize animal_type
      | .returns (r :: _) => r.label

/-- The dict returned for a matching cow row (`insights.py`, lines 83-91);
`none` models an exception raised by one of the `int(...)` conversions. -/
def cowRecordDict (record : CowRow) : Option (List (String × String)) := do
  let cost ← record.Cost_Of_Cow_INR.pyInt
  let annual ← (record.Monthly_Income_INR.pyMul 12).pyInt
  let monthly ← record.Monthly_Income_INR.pyInt
  pure [("breed_type", record.Breed_Type.pyStr),
        ("starting_expenditure", "₹" ++ pyCommaFmt cost),
        ("annual_income", "₹" ++ pyCommaFmt annual),
        ("farmers_percent", "--"),
        ("popular_areas", record.Popular_Areas.pyStr),
        ("milk_per_day", record.Milk_Per_Day_Litres.pyStr ++ " Liters"),
        ("monthly_income", "₹" ++ pyCommaFmt monthly)]

/-- The dict returned for a matching buffalo row (`insights.py`, lines 98-106). -/
def buffRecordDict (record : BuffRow) : Option (List (String × String)) := do
  let cost ← record.Cost_per_Buffalo_INR.pyInt
  let annual ← (record.Monthly_Income_per_Buffalo_INR.pyMul 12).pyInt
  let monthly ← record.Monthly_Income_per_Buffalo_INR.pyInt
  pure [("breed_type", record.Breed_Type.pyStr),
        ("starting_expenditure", "₹" ++ pyCommaFmt cost),
        ("annual_income", "₹" ++ pyCommaFmt annual),
        ("farmers_percent", "--"),
        ("popular_areas", record.Popular_Areas.pyStr),
        ("milk_per_day", record.Milk_per_Day_Liters.pyStr ++ " Liters"),
        ("monthly_income", "₹" ++ pyCommaFmt monthly)]

/-- The "no data found" dict (`insights.py`, lines 109-117). -/
def notAvailableDict (breed_type : String) : List (String × String) :=
  [("breed_type", breed_type),
   ("starting_expenditure", "Data not available"),
   ("annual_income", "Data not available"),
   ("farmers_percent", "--"),
   ("popular_areas", "Data not available"),
   ("milk_per_day", "Data not available"),
   ("monthly_income", "Data not available")]

/-- The `except` handler dict (`insights.py`, lines 121-129). -/
def errorFetchDict (breed_type : String) : List (String × String) :=
  [("breed_type", breed_type),
   ("starting_expenditure", "Error fetching data"),
   ("annual_income", "Error fetching data"),
   ("farmers_percent", "--"),
   ("popular_areas", "Error fetching data"),
   ("milk_per_day", "Error fetching data"),
   ("monthly_income", "Error fetching data")]

/-- The `try` block body of `get_breed_insights` (`insights.py`, lines 77-117);
`none` models an exception escaping the block into the handler. A species
branch whose filter finds no row falls through to the "no data found" dict. -/
def insightsBody (cow_breeds : Option (List CowRow)) (buff_breeds : Option (List BuffRow))
    (breed_type animal_type : String) : Option (List (String × String)) :=
  if pyLower animal_type == "cow" && cow_breeds.isSome then
    match (cow_breeds.getD []).filter (fun r => r.Breed_Type.eqStr breed_type) with
    | record :: _ => cowRecordDict record
    | [] => some (notAvailableDict breed_type)
  else if pyLower animal_type == "buffalo" && buff_breeds.isSome then
    match (buff_breeds.getD []).filter (fun r => r.Breed_Type.eqStr breed_type) with
    | record :: _ => buffRecordDict record
    | [] => some (notAvailableDict breed_type)
  else some (notAvailableDict breed_type)

/-- `get_breed_insights` (`insights.py`, lines 72-129): the `try` body with the
`except` handler wrapped around it. Total by construction. -/
def get_breed_insights (cow_breeds : Option (List CowRow)) (buff_breeds : Option (List BuffRow))
    (breed_type animal_type : String) : List (String × String) :=
  match insightsBody cow_breeds buff_breeds breed_type animal_type with
  | some d => d
  | none => errorFetchDict breed_type

/-- One yielded progress event (`insights.py`, lines 131-152): a progress
percentage, a status message, and optionally the final insight dict. -/
structure ProgressEvent where
  progress : Nat
  message : String
  data : Option (List (String × String))
  deriving DecidableEq, Repr

/-- `get_insights_stream` (`insights.py`, lines 131-152) as the list of events
the generator yields, in order. `detect_breed` runs between the events at 30
and 50; `get_breed_insights` between 75 and 90; both are total, so the
generator always runs to completion. -/
def get_insights_stream (breed_classifier : BreedClassifier)
    (cow_breeds : Option (List CowRow)) (buff_breeds : Option (List BuffRow))
    (animal image_path : String) : List ProgressEvent :=
  let detected_breed := detect_breed breed_classifier cow_breeds buff_breeds image_path animal
  let insights_data := get_breed_insights cow_breeds buff_breeds detected_breed animal
  [⟨5, "Initializing analysis...", none⟩,
   ⟨30, "Analyzing image to detect specific breed...", none⟩,
   ⟨50, "Breed detected: " ++ detected_breed ++ ". Fetching business insights...", none⟩,
   ⟨75, "Retrieving detailed business analytics from database...", none⟩,
   ⟨90, "Formatting and validating results...", none⟩,
   ⟨100, "✅ Analysis complete!", some insights_data⟩]

/-- One entry of the ranked result list of the species pipeline. -/
structure ScoredLabel where
  label : String
  score : ℚ
  deriving DecidableEq, Repr

/-- The mutable state of an `ImageClassification` object
(`image_classifier.py`, lines 4-13). -/
structure ImageClassification where
  labels : List String
  last_confidence : ℚ
  deriving DecidableEq, Repr

/-- The object as `__init__` leaves it: candidate labels `["cow", "buffalo"]`
and `last_confidence = 0.0`. -/
def ImageClassification.mkInit : ImageClassification :=
  ⟨["cow", "buffalo"], 0⟩

/-- The `image_classification` method (`image_classifier.py`, lines 15-31).
The pipeline call is the parameter `model` (image path and candidate labels to
ranked results). Returns the result string and the updated object. -/
def ImageClassification.image_classification (self : ImageClassification)
    (model : String → List String → List ScoredLabel)
    (image_path : String) : String × ImageClassification :=
  match model image_path self.labels with
  | [] => ("Unknown", self)
  | r :: _ => (r.label, { self with last_confidence := r.score })

/-! ### Shared helper lemmas -/

/-- When no row of either table matches the breed name, the `try` body of
`get_breed_insights` reaches the "no data found" dict, whatever the species. -/
theorem insightsBody_no_match (cow_breeds : Option (List CowRow))
    (buff_breeds : Option (List BuffRow)) (breed_type animal_type : String)
    (hc : ∀ r ∈ cow_breeds.getD [], r.Breed_Type.eqStr breed_type = false)
    (hb : ∀ r ∈ buff_breeds.getD [], r.Breed_Type.eqStr breed_type = false) :
    insightsBody cow_breeds buff_breeds breed_type animal_type =
      some (notAvailableDict breed_type) := by
  have hcf : (cow_breeds.getD []).filter (fun r => r.Breed_Type.eqStr breed_type) = [] :=
    List.filter_eq_nil_iff.mpr (by intro a ha; simp [hc a ha])
  have hbf : (buff_breeds.getD []).filter (fun r => r.Breed_Type.eqStr breed_type) = [] :=
    List.filter_eq_nil_iff.mpr (by intro a ha; simp [hb a ha])
  unfold insightsBody
  split
  · rw [hcf]
  · split
    · rw [hbf]
    · rfl

/-- `get_breed_insights` under the same no-match hypotheses. -/
theorem get_breed_insights_no_match (cow_breeds : Option (List CowRow))
    (buff_breeds : Option (List BuffRow)) (breed_type animal_type : String)
    (hc : ∀ r ∈ cow_breeds.getD [], r.Breed_Type.eqStr breed_type = false)
    (hb : ∀ r ∈ buff_breeds.getD [], r.Breed_Type.eqStr breed_type = false) :
    get_breed_insights cow_breeds buff_breeds breed_type animal_type =
      notAvailableDict breed_type := by
  unfold get_breed_insights
  rw [insightsBody_no_match cow_breeds buff_breeds breed_type animal_type hc hb]

/-- The shape of `detect_breed` once the classifier is loaded. -/
theorem detect_breed_some (clf : String → List Value → ModelResp)
    (cow_breeds : Option (List CowRow)) (buff_breeds : Option (List BuffRow))
    (image_path animal_type : String) :
    detect_breed (some clf) cow_breeds buff_breeds image_path animal_type =
      (if (detectLabels cow_breeds buff_breeds animal_type).isEmpty then
        "Unknown " ++ pyCapitalize animal_type
      else
        match clf image_path (detectLabels cow_breeds buff_breeds animal_type) with
        | .raises => "Error detecting breed"
        | .returns [] => "Uncertain " ++ pyCapitalize animal_type
        | .returns (r :: _) => r.label) := rfl

/-! ### Claim theorems -/

/-- C1, counterexample to the claim as stated: at a concrete classifier and the
sample tables, the stream yields 6 events, not 5, and its progress sequence is
not [5, 30, 50, 75, 100]. -/
theorem C1_counterexample :
    ((get_insights_stream (some fun _ _ => ModelResp.returns [⟨"Holstein-Friesian", 1⟩])
        (some sample_cow_breeds) (some sample_buff_breeds) "cow" "img.jpg").length ≠ 5) ∧
    ((get_insights_stream (some fun _ _ => ModelResp.returns [⟨"Holstein-Friesian", 1⟩])
        (some sample_cow_breeds) (some sample_buff_breeds) "cow" "img.jpg").map
      ProgressEvent.progress ≠ [5, 30, 50, 75, 100]) := by
  constructor
  · decide
  · decide

/-- C1, amended: for every classifier, tables, species and image,
`get_insights_stream` yields exactly 6 events, their progress values are the
strictly increasing sequence [5, 30, 50, 75, 90, 100], and exactly one event —
the last — carries a data field. -/
theorem C1_stream_shape (breed_classifier : BreedClassifier)
    (cow_breeds : Option (List CowRow)) (buff_breeds : Option (List BuffRow))
    (animal image_path : String) :
    ((get_insights_stream breed_classifier cow_breeds buff_breeds animal image_path).map
        ProgressEvent.progress = [5, 30, 50, 75, 90, 100]) ∧
    List.Chain' (· < ·)
      ((get_insights_stream breed_classifier cow_breeds buff_breeds animal image_path).map
        ProgressEvent.progress) ∧
    ((get_insights_stream breed_classifier cow_breeds buff_breeds animal image_path).map
        (fun e => e.data.isSome) = [false, false, false, false, false, true]) := by
  refine ⟨rfl, ?_, rfl⟩
  exact (by norm_num [List.chain'_cons] : List.Chain' (· < ·) ([5, 30, 50, 75, 90, 100] : List Nat))

/-- C2, counterexample to the claim as stated: with a present-but-empty cow
table and a model whose top label would be "Jersey", `detect_breed`
short-circuits to "Unknown Cow" instead of invoking the model on the fallback
list and returning "Jersey". -/
theorem C2_counterexample :
    (detect_breed (some fun _ _ => ModelResp.returns [⟨"Jersey", 1⟩])
      (some []) (some sample_buff_breeds) "img.jpg" "cow" = "Unknown Cow") ∧
    (detect_breed (some fun _ _ => ModelResp.returns [⟨"Jersey", 1⟩])
      (some []) (some sample_buff_breeds) "img.jpg" "cow" ≠ "Jersey") := by
  constructor
  · decide
  · decide

/-- C2, amended: the hard-coded fallback candidate list is used — and the model
invoked, its top label returned — when the selected species's table object is
missing (`None`, each species with its own fallback list), or when the species
matches neither branch (then the buffalo fallback list, since the species is
not "cow"); when the species's table is present but empty, `detect_breed`
returns "Unknown {Species}" without consulting the model. -/
theorem C2_fallback_only_when_table_missing
    (clfC clfB clfG clfE clfF : String → List Value → ModelResp)
    (cow_breeds cow2 cow3 : Option (List CowRow))
    (buff_breeds buff2 buff3 : Option (List BuffRow))
    (image_path animal : String)
    (rc rb rg : BreedResult) (rcs rbs rgs : List BreedResult)
    (hC : clfC image_path [Value.vstr "Holstein-Friesian", Value.vstr "Jersey",
        Value.vstr "Murrah", Value.vstr "Nili-Ravi"] = ModelResp.returns (rc :: rcs))
    (hB : clfB image_path [Value.vstr "Murrah", Value.vstr "Nili-Ravi",
        Value.vstr "Jaffarabadi", Value.vstr "Bhadawari"] = ModelResp.returns (rb :: rbs))
    (hga : (pyLower animal == "cow") = false)
    (hgb : (pyLower animal == "buffalo") = false)
    (hG : clfG image_path [Value.vstr "Murrah", Value.vstr "Nili-Ravi",
        Value.vstr "Jaffarabadi", Value.vstr "Bhadawari"] = ModelResp.returns (rg :: rgs)) :
    (detect_breed (some clfC) none buff_breeds image_path "cow" = rc.label) ∧
    (detect_breed (some clfB) cow_breeds none image_path "buffalo" = rb.label) ∧
    (detect_breed (some clfG) cow2 buff2 image_path animal = rg.label) ∧
    (detect_breed (some clfE) (some []) buff3 image_path "cow" = "Unknown Cow") ∧
    (detect_breed (some clfF) cow3 (some []) image_path "buffalo" = "Unknown Buffalo") := by
  refine ⟨?_, ?_, ?_, ?_, ?_⟩
  · have hl : detectLabels none buff_breeds "cow" =
        [Value.vstr "Holstein-Friesian", Value.vstr "Jersey",
         Value.vstr "Murrah", Value.vstr "Nili-Ravi"] := rfl
    rw [detect_breed_some, hl, hC]
    rfl
  · have hl : detectLabels cow_breeds none "buffalo" =
        [Value.vstr "Murrah", Value.vstr "Nili-Ravi",
         Value.vstr "Jaffarabadi", Value.vstr "Bhadawari"] := rfl
    rw [detect_breed_some, hl, hB]
    rfl
  · have hl : detectLabels cow2 buff2 animal =
        [Value.vstr "Murrah", Value.vstr "Nili-Ravi",
         Value.vstr "Jaffarabadi", Value.vstr "Bhadawari"] := by
      unfold detectLabels
      rw [hga, hgb]
      rfl
    rw [detect_breed_some, hl, hG]
    rfl
  · have hl : detectLabels (some []) buff3 "cow" = [] := rfl
    rw [detect_breed_some, hl]
    rfl
  · have hl : detectLabels cow3 (some []) "buffalo" = [] := rfl
    rw [detect_breed_some, hl]
    rfl

/-- C2 witness: all five arms at concrete inputs, with "goat" for the
neither-species arm. -/
theorem C2_fallback_only_when_table_missing_witness :
    (detect_breed (some fun _ _ => ModelResp.returns [⟨"Holstein-Friesian", 1⟩]) none
      (some sample_buff_breeds) "img.jpg" "cow" = "Holstein-Friesian") ∧
    (detect_breed (some fun _ _ => ModelResp.returns [⟨"Jaffarabadi", 1⟩])
      (some sample_cow_breeds) none "img.jpg" "buffalo" = "Jaffarabadi") ∧
    (detect_breed (some fun _ _ => ModelResp.returns [⟨"Bhadawari", 1⟩])
      (some sample_cow_breeds) (some sample_buff_breeds) "img.jpg" "goat" = "Bhadawari") ∧
    (detect_breed (some fun _ _ => ModelResp.returns [⟨"Jersey", 1⟩]) (some [])
      (some sample_buff_breeds) "img.jpg" "cow" = "Unknown Cow") ∧
    (detect_breed (some fun _ _ => ModelResp.returns [⟨"Murrah", 1⟩])
      (some sample_cow_breeds) (some []) "img.jpg" "buffalo" = "Unknown Buffalo") :=
  C2_fallback_only_when_table_missing
    (fun _ _ => ModelResp.returns [⟨"Holstein-Friesian", 1⟩])
    (fun _ _ => ModelResp.returns [⟨"Jaffarabadi", 1⟩])
    (fun _ _ => ModelResp.returns [⟨"Bhadawari", 1⟩])
    (fun _ _ => ModelResp.returns [⟨"Jersey", 1⟩])
    (fun _ _ => ModelResp.returns [⟨"Murrah", 1⟩])
    (some sample_cow_breeds) (some sample_cow_breeds) (some sample_cow_breeds)
    (some sample_buff_breeds) (some sample_buff_breeds) (some sample_buff_breeds)
    "img.jpg" "goat"
    ⟨"Holstein-Friesian", 1⟩ ⟨"Jaffarabadi", 1⟩ ⟨"Bhadawari", 1⟩ [] [] []
    rfl rfl (by decide) (by decide) rfl

/-- When the loaded classifier raises on the selected (non-empty) candidate
list, `detect_breed` returns the error placeholder. -/
theorem detect_breed_raises (clf : String → List Value → ModelResp)
    (cow_breeds : Option (List CowRow)) (buff_breeds : Option (List BuffRow))
    (image_path animal_type : String)
    (hlab : detectLabels cow_breeds buff_breeds animal_type ≠ [])
    (hr : clf image_path (detectLabels cow_breeds buff_breeds animal_type) = ModelResp.raises) :
    detect_breed (some clf) cow_breeds buff_breeds image_path animal_type =
      "Error detecting breed" := by
  cases hl : detectLabels cow_breeds buff_breeds animal_type with
  | nil => exact absurd hl hlab
  | cons a l =>
    rw [hl] at hr
    rw [detect_breed_some, hl, hr]
    rfl

/-- The last event of the stream always carries the resolved insight dict. -/
theorem get_insights_stream_last (breed_classifier : BreedClassifier)
    (cow_breeds : Option (List CowRow)) (buff_breeds : Option (List BuffRow))
    (animal image_path : String) :
    (get_insights_stream breed_classifier cow_breeds buff_breeds animal image_path).getLast? =
      some ⟨100, "✅ Analysis complete!",
        some (get_breed_insights cow_breeds buff_breeds
          (detect_breed breed_classifier cow_breeds buff_breeds image_path animal) animal)⟩ :=
  rfl

/-- C3: when the model call raises during breed detection, the stream still
completes every stage, and the final event's data is the record with
breed_type "Error detecting breed", farmers_percent "--", and every other
field "Data not available" (that string matches no table row). -/
theorem C3_model_error_degrades (clf : String → List Value → ModelResp)
    (cow_breeds : Option (List CowRow)) (buff_breeds : Option (List BuffRow))
    (animal image_path : String)
    (hraise : clf image_path (detectLabels cow_breeds buff_breeds animal) = ModelResp.raises)
    (hlab : detectLabels cow_breeds buff_breeds animal ≠ [])
    (hc : ∀ r ∈ cow_breeds.getD [], r.Breed_Type.eqStr "Error detecting breed" = false)
    (hb : ∀ r ∈ buff_breeds.getD [], r.Breed_Type.eqStr "Error detecting breed" = false) :
    ((get_insights_stream (some clf) cow_breeds buff_breeds animal image_path).map
        ProgressEvent.progress = [5, 30, 50, 75, 90, 100]) ∧
    ((get_insights_stream (some clf) cow_breeds buff_breeds animal image_path).getLast? =
      some ⟨100, "✅ Analysis complete!",
        some [("breed_type", "Error detecting breed"),
              ("starting_expenditure", "Data not available"),
              ("annual_income", "Data not available"),
              ("farmers_percent", "--"),
              ("popular_areas", "Data not available"),
              ("milk_per_day", "Data not available"),
              ("monthly_income", "Data not available")]⟩) := by
  refine ⟨rfl, ?_⟩
  rw [get_insights_stream_last,
    detect_breed_raises clf cow_breeds buff_breeds image_path animal hlab hraise,
    get_breed_insights_no_match cow_breeds buff_breeds "Error detecting breed" animal hc hb]
  rfl

/-- C3 witness. -/
theorem C3_model_error_degrades_witness :
    ((get_insights_stream (some fun _ _ => ModelResp.raises) (some sample_cow_breeds)
        (some sample_buff_breeds) "cow" "img.jpg").map
        ProgressEvent.progress = [5, 30, 50, 75, 90, 100]) ∧
    ((get_insights_stream (some fun _ _ => ModelResp.raises) (some sample_cow_breeds)
        (some sample_buff_breeds) "cow" "img.jpg").getLast? =
      some ⟨100, "✅ Analysis complete!",
        some [("breed_type", "Error detecting breed"),
              ("starting_expenditure", "Data not available"),
              ("annual_income", "Data not available"),
              ("farmers_percent", "--"),
              ("popular_areas", "Data not available"),
              ("milk_per_day", "Data not available"),
              ("monthly_income", "Data not available")]⟩) :=
  C3_model_error_degrades (fun _ _ => ModelResp.raises) (some sample_cow_breeds)
    (some sample_buff_breeds) "cow" "img.jpg" rfl (by decide) (by decide) (by decide)

/-- `get_breed_insights` on a cow-table hit whose numeric cells are integers. -/
theorem get_breed_insights_cow_row (cowT : List CowRow) (buff_breeds : Option (List BuffRow))
    (breed : String) (crow : CowRow) (crest : List CowRow) (c m : Int)
    (hf : cowT.filter (fun r => r.Breed_Type.eqStr breed) = crow :: crest)
    (hc : crow.Cost_Of_Cow_INR = Value.vint c)
    (hm : crow.Monthly_Income_INR = Value.vint m) :
    get_breed_insights (some cowT) buff_breeds breed "cow" =
      [("breed_type", crow.Breed_Type.pyStr),
       ("starting_expenditure", "₹" ++ pyCommaFmt c),
       ("annual_income", "₹" ++ pyCommaFmt (m * 12)),
       ("farmers_percent", "--"),
       ("popular_areas", crow.Popular_Areas.pyStr),
       ("milk_per_day", crow.Milk_Per_Day_Litres.pyStr ++ " Liters"),
       ("monthly_income", "₹" ++ pyCommaFmt m)] := by
  have hbody : insightsBody (some cowT) buff_breeds breed "cow" = cowRecordDict crow := by
    show (match cowT.filter (fun r => r.Breed_Type.eqStr breed) with
      | record :: _ => cowRecordDict record
      | [] => some (notAvailableDict breed)) = cowRecordDict crow
    rw [hf]
  have hd : cowRecordDict crow =
      some [("breed_type", crow.Breed_Type.pyStr),
            ("starting_expenditure", "₹" ++ pyCommaFmt c),
            ("annual_income", "₹" ++ pyCommaFmt (m * 12)),
            ("farmers_percent", "--"),
            ("popular_areas", crow.Popular_Areas.pyStr),
            ("milk_per_day", crow.Milk_Per_Day_Litres.pyStr ++ " Liters"),
            ("monthly_income", "₹" ++ pyCommaFmt m)] := by
    simp [cowRecordDict, hc, hm, Value.pyMul, Value.pyInt]
  unfold get_breed_insights
  rw [hbody, hd]

/-- `get_breed_insights` on a buffalo-table hit whose numeric cells are integers. -/
theorem get_breed_insights_buff_row (cow_breeds : Option (List CowRow)) (buffT : List BuffRow)
    (breed : String) (brow : BuffRow) (brest : List BuffRow) (c m : Int)
    (hf : buffT.filter (fun r => r.Breed_Type.eqStr breed) = brow :: brest)
    (hc : brow.Cost_per_Buffalo_INR = Value.vint c)
    (hm : brow.Monthly_Income_per_Buffalo_INR = Value.vint m) :
    get_breed_insights cow_breeds (some buffT) breed "buffalo" =
      [("breed_type", brow.Breed_Type.pyStr),
       ("starting_expenditure", "₹" ++ pyCommaFmt c),
       ("annual_income", "₹" ++ pyCommaFmt (m * 12)),
       ("farmers_percent", "--"),
       ("popular_areas", brow.Popular_Areas.pyStr),
       ("milk_per_day", brow.Milk_per_Day_Liters.pyStr ++ " Liters"),
       ("monthly_income", "₹" ++ pyCommaFmt m)] := by
  have hbody : insightsBody cow_breeds (some buffT) breed "buffalo" = buffRecordDict brow := by
    show (match buffT.filter (fun r => r.Breed_Type.eqStr breed) with
      | record :: _ => buffRecordDict record
      | [] => some (notAvailableDict breed)) = buffRecordDict brow
    rw [hf]
  have hd : buffRecordDict brow =
      some [("breed_type", brow.Breed_Type.pyStr),
            ("starting_expenditure", "₹" ++ pyCommaFmt c),
            ("annual_income", "₹" ++ pyCommaFmt (m * 12)),
            ("farmers_percent", "--"),
            ("popular_areas", brow.Popular_Areas.pyStr),
            ("milk_per_day", brow.Milk_per_Day_Liters.pyStr ++ " Liters"),
            ("monthly_income", "₹" ++ pyCommaFmt m)] := by
    simp [buffRecordDict, hc, hm, Value.pyMul, Value.pyInt]
  unfold get_breed_insights
  rw [hbody, hd]

/-- C4: for each species, a breed name hitting a table row yields an
annual_income that is the currency formatting of 12 times the row's monthly
income, with both incomes formatted with thousands separators. -/
theorem C4_annual_income_12x (cowT : List CowRow) (buffT : List BuffRow)
    (cname bname : String) (crow : CowRow) (crest : List CowRow)
    (brow : BuffRow) (brest : List BuffRow) (ccost cm bcost bm : Int)
    (hcf : cowT.filter (fun r => r.Breed_Type.eqStr cname) = crow :: crest)
    (hcc : crow.Cost_Of_Cow_INR = Value.vint ccost)
    (hcm : crow.Monthly_Income_INR = Value.vint cm)
    (hbf : buffT.filter (fun r => r.Breed_Type.eqStr bname) = brow :: brest)
    (hbc : brow.Cost_per_Buffalo_INR = Value.vint bcost)
    (hbm : brow.Monthly_Income_per_Buffalo_INR = Value.vint bm) :
    ((get_breed_insights (some cowT) (some buffT) cname "cow").lookup "annual_income"
        = some ("₹" ++ pyCommaFmt (cm * 12)) ∧
     (get_breed_insights (some cowT) (some buffT) cname "cow").lookup "monthly_income"
        = some ("₹" ++ pyCommaFmt cm)) ∧
    ((get_breed_insights (some cowT) (some buffT) bname "buffalo").lookup "annual_income"
        = some ("₹" ++ pyCommaFmt (bm * 12)) ∧
     (get_breed_insights (some cowT) (some buffT) bname "buffalo").lookup "monthly_income"
        = some ("₹" ++ pyCommaFmt bm)) := by
  rw [get_breed_insights_cow_row cowT (some buffT) cname crow crest ccost cm hcf hcc hcm,
    get_breed_insights_buff_row (some cowT) buffT bname brow brest bcost bm hbf hbc hbm]
  refine ⟨⟨rfl, rfl⟩, rfl, rfl⟩

/-- C4 witness: the sample Jersey cow (monthly 7,500 → annual 90,000) and the
sample Murrah buffalo (monthly 9,000 → annual 108,000). -/
theorem C4_annual_income_12x_witness :
    ((get_breed_insights (some sample_cow_breeds) (some sample_buff_breeds) "Jersey"
        "cow").lookup "annual_income" = some ("₹" ++ pyCommaFmt (7500 * 12)) ∧
     (get_breed_insights (some sample_cow_breeds) (some sample_buff_breeds) "Jersey"
        "cow").lookup "monthly_income" = some ("₹" ++ pyCommaFmt 7500)) ∧
    ((get_breed_insights (some sample_cow_breeds) (some sample_buff_breeds) "Murrah"
        "buffalo").lookup "annual_income" = some ("₹" ++ pyCommaFmt (9000 * 12)) ∧
     (get_breed_insights (some sample_cow_breeds) (some sample_buff_breeds) "Murrah"
        "buffalo").lookup "monthly_income" = some ("₹" ++ pyCommaFmt 9000)) :=
  C4_annual_income_12x sample_cow_breeds sample_buff_breeds "Jersey" "Murrah"
    ⟨.vstr "Jersey", .vint 45000, .vint 7500, .vstr "Global", .vint 15⟩ []
    ⟨.vstr "Murrah", .vint 60000, .vint 9000, .vstr "Haryana, Punjab", .vint 18⟩ []
    45000 7500 60000 9000 (by decide) rfl rfl (by decide) rfl rfl

/-- C5: a breed name matching no row of the selected species's table (under
exact, case-sensitive comparison) yields the record with every field
"Data not available" except breed_type (echoed) and farmers_percent ("--").
Only the selected species's table is consulted: the other table is arbitrary
and may well contain the breed. -/
theorem C5_absent_breed (cow_breeds : List CowRow) (buff_breeds : List BuffRow)
    (cowO : Option (List CowRow)) (buffO : Option (List BuffRow))
    (cbreed bbreed : String)
    (hc : ∀ r ∈ cow_breeds, r.Breed_Type.eqStr cbreed = false)
    (hb : ∀ r ∈ buff_breeds, r.Breed_Type.eqStr bbreed = false) :
    (get_breed_insights (some cow_breeds) buffO cbreed "cow" =
      [("breed_type", cbreed),
       ("starting_expenditure", "Data not available"),
       ("annual_income", "Data not available"),
       ("farmers_percent", "--"),
       ("popular_areas", "Data not available"),
       ("milk_per_day", "Data not available"),
       ("monthly_income", "Data not available")]) ∧
    (get_breed_insights cowO (some buff_breeds) bbreed "buffalo" =
      [("breed_type", bbreed),
       ("starting_expenditure", "Data not available"),
       ("annual_income", "Data not available"),
       ("farmers_percent", "--"),
       ("popular_areas", "Data not available"),
       ("milk_per_day", "Data not available"),
       ("monthly_income", "Data not available")]) := by
  constructor
  · have hcf : cow_breeds.filter (fun r => r.Breed_Type.eqStr cbreed) = [] :=
      List.filter_eq_nil_iff.mpr (by intro a ha; simp [hc a ha])
    have h1 : insightsBody (some cow_breeds) buffO cbreed "cow" =
        some (notAvailableDict cbreed) := by
      show (match cow_breeds.filter (fun r => r.Breed_Type.eqStr cbreed) with
        | record :: _ => cowRecordDict record
        | [] => some (notAvailableDict cbreed)) = some (notAvailableDict cbreed)
      rw [hcf]
    unfold get_breed_insights
    rw [h1]
    rfl
  · have hbf : buff_breeds.filter (fun r => r.Breed_Type.eqStr bbreed) = [] :=
      List.filter_eq_nil_iff.mpr (by intro a ha; simp [hb a ha])
    have h2 : insightsBody cowO (some buff_breeds) bbreed "buffalo" =
        some (notAvailableDict bbreed) := by
      show (match buff_breeds.filter (fun r => r.Breed_Type.eqStr bbreed) with
        | record :: _ => buffRecordDict record
        | [] => some (notAvailableDict bbreed)) = some (notAvailableDict bbreed)
      rw [hbf]
    unfold get_breed_insights
    rw [h2]
    rfl

/-- C5 witness: "Murrah" misses the cow table (it is reachable there, being a
cow fallback label, and sits in the buffalo table), and "Sahiwal" misses the
buffalo table. -/
theorem C5_absent_breed_witness :
    (get_breed_insights (some sample_cow_breeds) (some sample_buff_breeds) "Murrah" "cow" =
      [("breed_type", "Murrah"),
       ("starting_expenditure", "Data not available"),
       ("annual_income", "Data not available"),
       ("farmers_percent", "--"),
       ("popular_areas", "Data not available"),
       ("milk_per_day", "Data not available"),
       ("monthly_income", "Data not available")]) ∧
    (get_breed_insights (some sample_cow_breeds) (some sample_buff_breeds) "Sahiwal"
        "buffalo" =
      [("breed_type", "Sahiwal"),
       ("starting_expenditure", "Data not available"),
       ("annual_income", "Data not available"),
       ("farmers_percent", "--"),
       ("popular_areas", "Data not available"),
       ("milk_per_day", "Data not available"),
       ("monthly_income", "Data not available")]) :=
  C5_absent_breed sample_cow_breeds sample_buff_breeds
    (some sample_cow_breeds) (some sample_buff_breeds) "Murrah" "Sahiwal"
    (by decide) (by decide)

/-- C6: `detect_breed` is total (it is a Lean function into `String`), and each
degraded path returns exactly its placeholder: "Default {Species}" when the
classifier failed to load, "Unknown {Species}" when the candidate list is
empty, "Error detecting breed" when the call raises, and
"Uncertain {Species}" when the call returns zero results. -/
theorem C6_detect_breed_degraded (animal image_path : String)
    (cowN : Option (List CowRow)) (buffN : Option (List BuffRow))
    (clfB clfC clfD : String → List Value → ModelResp)
    (cowB : Option (List CowRow)) (buffB : Option (List BuffRow))
    (hB : detectLabels cowB buffB animal = [])
    (cowC : Option (List CowRow)) (buffC : Option (List BuffRow))
    (hC : clfC image_path (detectLabels cowC buffC animal) = ModelResp.raises)
    (hCne : detectLabels cowC buffC animal ≠ [])
    (cowD : Option (List CowRow)) (buffD : Option (List BuffRow))
    (hD : clfD image_path (detectLabels cowD buffD animal) = ModelResp.returns [])
    (hDne : detectLabels cowD buffD animal ≠ []) :
    (detect_breed none cowN buffN image_path animal = "Default " ++ pyCapitalize animal) ∧
    (detect_breed (some clfB) cowB buffB image_path animal = "Unknown " ++ pyCapitalize animal) ∧
    (detect_breed (some clfC) cowC buffC image_path animal = "Error detecting breed") ∧
    (detect_breed (some clfD) cowD buffD image_path animal =
      "Uncertain " ++ pyCapitalize animal) := by
  refine ⟨rfl, ?_, detect_breed_raises clfC cowC buffC image_path animal hCne hC, ?_⟩
  · rw [detect_breed_some, hB]
    rfl
  · cases hl : detectLabels cowD buffD animal with
    | nil => exact absurd hl hDne
    | cons a l =>
      rw [hl] at hD
      rw [detect_breed_some, hl, hD]
      rfl

/-- C6 witness. -/
theorem C6_detect_breed_degraded_witness :
    (detect_breed none (some sample_cow_breeds) (some sample_buff_breeds) "img.jpg" "cow" =
      "Default " ++ pyCapitalize "cow") ∧
    (detect_breed (some fun _ _ => ModelResp.returns []) (some []) (some sample_buff_breeds)
      "img.jpg" "cow" = "Unknown " ++ pyCapitalize "cow") ∧
    (detect_breed (some fun _ _ => ModelResp.raises) (some sample_cow_breeds)
      (some sample_buff_breeds) "img.jpg" "cow" = "Error detecting breed") ∧
    (detect_breed (some fun _ _ => ModelResp.returns []) (some sample_cow_breeds)
      (some sample_buff_breeds) "img.jpg" "cow" = "Uncertain " ++ pyCapitalize "cow") :=
  C6_detect_breed_degraded "cow" "img.jpg" (some sample_cow_breeds) (some sample_buff_breeds)
    (fun _ _ => ModelResp.returns []) (fun _ _ => ModelResp.raises)
    (fun _ _ => ModelResp.returns [])
    (some []) (some sample_buff_breeds) rfl
    (some sample_cow_breeds) (some sample_buff_breeds) rfl (by decide)
    (some sample_cow_breeds) (some sample_buff_breeds) rfl (by decide)

/-- C7: when an internal error escapes the `try` body of `get_breed_insights`,
the handler returns the record with every field "Error fetching data" except
breed_type (echoed) and farmers_percent ("--"); no exception propagates. -/
theorem C7_internal_error_record (cow_breeds : Option (List CowRow))
    (buff_breeds : Option (List BuffRow)) (breed_type animal_type : String)
    (h : insightsBody cow_breeds buff_breeds breed_type animal_type = none) :
    get_breed_insights cow_breeds buff_breeds breed_type animal_type =
      [("breed_type", breed_type),
       ("starting_expenditure", "Error fetching data"),
       ("annual_income", "Error fetching data"),
       ("farmers_percent", "--"),
       ("popular_areas", "Error fetching data"),
       ("milk_per_day", "Error fetching data"),
       ("monthly_income", "Error fetching data")] := by
  unfold get_breed_insights
  rw [h]
  rfl

/-- C7 witness: a row whose cost cell is a non-numeric string makes the body's
`int(...)` conversion raise, and the handler record is returned. -/
theorem C7_internal_error_record_witness :
    get_breed_insights
      (some [⟨.vstr "Badrow", .vstr "expensive", .vint 5, .vstr "X", .vint 1⟩])
      (some sample_buff_breeds) "Badrow" "cow" =
      [("breed_type", "Badrow"),
       ("starting_expenditure", "Error fetching data"),
       ("annual_income", "Error fetching data"),
       ("farmers_percent", "--"),
       ("popular_areas", "Error fetching data"),
       ("milk_per_day", "Error fetching data"),
       ("monthly_income", "Error fetching data")] :=
  C7_internal_error_record
    (some [⟨.vstr "Badrow", .vstr "expensive", .vint 5, .vstr "X", .vint 1⟩])
    (some sample_buff_breeds) "Badrow" "cow" (by decide)

/-- The keys (and the farmers_percent value) of any dict a successful cow-row
branch produces. -/
theorem cowRecordDict_shape (record : CowRow) (d : List (String × String))
    (h : cowRecordDict record = some d) :
    d.map Prod.fst = ["breed_type", "starting_expenditure", "annual_income",
      "farmers_percent", "popular_areas", "milk_per_day", "monthly_income"] ∧
    d.lookup "farmers_percent" = some "--" := by
  rcases hc : record.Cost_Of_Cow_INR.pyInt with _ | c
  · simp [cowRecordDict, hc] at h
  rcases ha : (record.Monthly_Income_INR.pyMul 12).pyInt with _ | a
  · simp [cowRecordDict, hc, ha] at h
  rcases hm : record.Monthly_Income_INR.pyInt with _ | m
  · simp [cowRecordDict, hc, ha, hm] at h
  · simp [cowRecordDict, hc, ha, hm] at h
    subst h
    exact ⟨rfl, rfl⟩

/-- The keys (and the farmers_percent value) of any dict a successful
buffalo-row branch produces. -/
theorem buffRecordDict_shape (record : BuffRow) (d : List (String × String))
    (h : buffRecordDict record = some d) :
    d.map Prod.fst = ["breed_type", "starting_expenditure", "annual_income",
      "farmers_percent", "popular_areas", "milk_per_day", "monthly_income"] ∧
    d.lookup "farmers_percent" = some "--" := by
  rcases hc : record.Cost_per_Buffalo_INR.pyInt with _ | c
  · simp [buffRecordDict, hc] at h
  rcases ha : (record.Monthly_Income_per_Buffalo_INR.pyMul 12).pyInt with _ | a
  · simp [buffRecordDict, hc, ha] at h
  rcases hm : record.Monthly_Income_per_Buffalo_INR.pyInt with _ | m
  · simp [buffRecordDict, hc, ha, hm] at h
  · simp [buffRecordDict, hc, ha, hm] at h
    subst h
    exact ⟨rfl, rfl⟩

/-- Every successful result of the `try` body has the seven fixed keys and
farmers_percent "--". -/
theorem insightsBody_shape (cow_breeds : Option (List CowRow))
    (buff_breeds : Option (List BuffRow)) (breed_type animal_type : String)
    (d : List (String × String))
    (h : insightsBody cow_breeds buff_breeds breed_type animal_type = some d) :
    d.map Prod.fst = ["breed_type", "starting_expenditure", "annual_income",
      "farmers_percent", "popular_areas", "milk_per_day", "monthly_income"] ∧
    d.lookup "farmers_percent" = some "--" := by
  unfold insightsBody at h
  split at h
  · split at h
    · exact cowRecordDict_shape _ _ h
    · obtain rfl : notAvailableDict breed_type = d := Option.some.inj h
      exact ⟨rfl, rfl⟩
  · split at h
    · split at h
      · exact buffRecordDict_shape _ _ h
      · obtain rfl : notAvailableDict breed_type = d := Option.some.inj h
        exact ⟨rfl, rfl⟩
    · obtain rfl : notAvailableDict breed_type = d := Option.some.inj h
      exact ⟨rfl, rfl⟩

/-- `get_breed_insights` always returns the seven fixed keys in order, with
farmers_percent "--", for every input whatsoever. -/
theorem get_breed_insights_shape (cow_breeds : Option (List CowRow))
    (buff_breeds : Option (List BuffRow)) (breed_type animal_type : String) :
    ((get_breed_insights cow_breeds buff_breeds breed_type animal_type).map Prod.fst =
      ["breed_type", "starting_expenditure", "annual_income", "farmers_percent",
       "popular_areas", "milk_per_day", "monthly_income"]) ∧
    ((get_breed_insights cow_breeds buff_breeds breed_type animal_type).lookup
      "farmers_percent" = some "--") := by
  unfold get_breed_insights
  rcases hbody : insightsBody cow_breeds buff_breeds breed_type animal_type with _ | d
  · exact ⟨rfl, rfl⟩
  · exact insightsBody_shape cow_breeds buff_breeds breed_type animal_type d hbody

/-- C8: invoked with the fixed candidate labels ["cow", "buffalo"], the species
classifier returns the top-scoring result's label and stores its score as the
confidence; with zero results it returns the sentinel "Unknown". -/
theorem C8_species_classifier_top (model modelE : String → List String → List ScoredLabel)
    (self selfE : ImageClassification) (image_path : String)
    (r : ScoredLabel) (rs : List ScoredLabel)
    (hlab : self.labels = ["cow", "buffalo"])
    (hres : model image_path ["cow", "buffalo"] = r :: rs)
    (htop : ∀ x ∈ r :: rs, x.score ≤ r.score)
    (hlabE : selfE.labels = ["cow", "buffalo"])
    (hresE : modelE image_path ["cow", "buffalo"] = []) :
    ((self.image_classification model image_path).1 = r.label) ∧
    ((self.image_classification model image_path).2.last_confidence = r.score) ∧
    (∀ x ∈ model image_path ["cow", "buffalo"],
      x.score ≤ (self.image_classification model image_path).2.last_confidence) ∧
    ((selfE.image_classification modelE image_path).1 = "Unknown") := by
  unfold ImageClassification.image_classification
  rw [hlab, hres, hlabE, hresE]
  exact ⟨rfl, rfl, htop, rfl⟩

/-- C8 witness: the spec's example, a model returning
[("cow", 0.9), ("buffalo", 0.1)]. -/
theorem C8_species_classifier_top_witness :
    ((ImageClassification.mkInit.image_classification
        (fun _ _ => [⟨"cow", 9/10⟩, ⟨"buffalo", 1/10⟩]) "img.jpg").1 = "cow") ∧
    ((ImageClassification.mkInit.image_classification
        (fun _ _ => [⟨"cow", 9/10⟩, ⟨"buffalo", 1/10⟩]) "img.jpg").2.last_confidence
      = (9 : ℚ)/10) ∧
    (∀ x ∈ (fun (_ : String) (_ : List String) =>
        [ScoredLabel.mk "cow" (9/10), ScoredLabel.mk "buffalo" (1/10)]) "img.jpg"
        ["cow", "buffalo"],
      x.score ≤ (ImageClassification.mkInit.image_classification
        (fun _ _ => [⟨"cow", 9/10⟩, ⟨"buffalo", 1/10⟩]) "img.jpg").2.last_confidence) ∧
    ((ImageClassification.mkInit.image_classification (fun _ _ => []) "img.jpg").1
      = "Unknown") :=
  C8_species_classifier_top
    (fun _ _ => [⟨"cow", 9/10⟩, ⟨"buffalo", 1/10⟩]) (fun _ _ => [])
    ImageClassification.mkInit ImageClassification.mkInit "img.jpg"
    ⟨"cow", 9/10⟩ [⟨"buffalo", 1/10⟩] rfl rfl
    (by
      intro x hx
      simp only [List.mem_cons, List.not_mem_nil, or_false] at hx
      rcases hx with rfl | rfl
      · exact le_refl _
      · show (1 : ℚ)/10 ≤ 9/10
        norm_num)
    rfl rfl

/-- C9: with an empty model result, `image_classification` returns "Unknown"
and leaves the whole object — in particular `last_confidence` — unchanged;
`__init__` sets `last_confidence` to 0.0, and only the non-empty path updates
it, so a stale value survives an "Unknown" call. -/
theorem C9_unknown_preserves_confidence (model : String → List String → List ScoredLabel)
    (self : ImageClassification) (image_path : String)
    (h : model image_path self.labels = []) :
    (self.image_classification model image_path = ("Unknown", self)) ∧
    ((self.image_classification model image_path).2.last_confidence =
      self.last_confidence) ∧
    (ImageClassification.mkInit.last_confidence = 0) := by
  unfold ImageClassification.image_classification
  rw [h]
  exact ⟨rfl, rfl, rfl⟩

/-- C9 witness: an object holding a stale confidence of 9/10 keeps it across an
"Unknown" call. -/
theorem C9_unknown_preserves_confidence_witness :
    ((ImageClassification.mk ["cow", "buffalo"] (9/10)).image_classification
        (fun _ _ => []) "img.jpg" = ("Unknown", ImageClassification.mk ["cow", "buffalo"] (9/10))) ∧
    (((ImageClassification.mk ["cow", "buffalo"] (9/10)).image_classification
        (fun _ _ => []) "img.jpg").2.last_confidence =
      (ImageClassification.mk ["cow", "buffalo"] (9/10)).last_confidence) ∧
    (ImageClassification.mkInit.last_confidence = 0) :=
  C9_unknown_preserves_confidence (fun _ _ => [])
    (ImageClassification.mk ["cow", "buffalo"] (9/10)) "img.jpg" rfl

/-- C10: `get_breed_insights` is total over all string inputs; the result
always has exactly the seven keys in their fixed order, farmers_percent is
"--" in every branch, and a species outside {cow, buffalo} falls through to
the "Data not available" branch. -/
theorem C10_insights_total_shape (cow_breeds : Option (List CowRow))
    (buff_breeds : Option (List BuffRow)) (breed_type animal_type animal2 : String)
    (h1 : (pyLower animal2 == "cow") = false)
    (h2 : (pyLower animal2 == "buffalo") = false) :
    ((get_breed_insights cow_breeds buff_breeds breed_type animal_type).map Prod.fst =
      ["breed_type", "starting_expenditure", "annual_income", "farmers_percent",
       "popular_areas", "milk_per_day", "monthly_income"]) ∧
    ((get_breed_insights cow_breeds buff_breeds breed_type animal_type).lookup
      "farmers_percent" = some "--") ∧
    (get_breed_insights cow_breeds buff_breeds breed_type animal2 =
      [("breed_type", breed_type),
       ("starting_expenditure", "Data not available"),
       ("annual_income", "Data not available"),
       ("farmers_percent", "--"),
       ("popular_areas", "Data not available"),
       ("milk_per_day", "Data not available"),
       ("monthly_income", "Data not available")]) := by
  refine ⟨(get_breed_insights_shape cow_breeds buff_breeds breed_type animal_type).1,
    (get_breed_insights_shape cow_breeds buff_breeds breed_type animal_type).2, ?_⟩
  have h3 : insightsBody cow_breeds buff_breeds breed_type animal2 =
      some (notAvailableDict breed_type) := by
    unfold insightsBody
    rw [h1, h2]
    rfl
  unfold get_breed_insights
  rw [h3]
  rfl

/-- C10 witness: the species string "goat" selects neither table. -/
theorem C10_insights_total_shape_witness :
    ((get_breed_insights (some sample_cow_breeds) (some sample_buff_breeds) "Jersey"
        "cow").map Prod.fst =
      ["breed_type", "starting_expenditure", "annual_income", "farmers_percent",
       "popular_areas", "milk_per_day", "monthly_income"]) ∧
    ((get_breed_insights (some sample_cow_breeds) (some sample_buff_breeds) "Jersey"
        "cow").lookup "farmers_percent" = some "--") ∧
    (get_breed_insights (some sample_cow_breeds) (some sample_buff_breeds) "Jersey" "goat" =
      [("breed_type", "Jersey"),
       ("starting_expenditure", "Data not available"),
       ("annual_income", "Data not available"),
       ("farmers_percent", "--"),
       ("popular_areas", "Data not available"),
       ("milk_per_day", "Data not available"),
       ("monthly_income", "Data not available")]) :=
  C10_insights_total_shape (some sample_cow_breeds) (some sample_buff_breeds)
    "Jersey" "cow" "goat" (by decide) (by decide)

end Dairy
